import Mathlib

/-!
Shallow embedding of the `AzureOpenAIAgent` session-orchestration pipeline
(`OpenCode/install.sh`, embedded TypeScript module) of claude-mem, together
with proofs about its truncation, fallback, token-accounting and error paths.

Conventions used throughout:
* JavaScript arrays of conversation messages become `List ConversationMessage`;
  `push` becomes `++ [·]`.
* JavaScript numbers that stay integral (string lengths, token sums, counters)
  become `Nat`; the two genuinely fractional constants `0.7` and `0.3` are
  modelled by their exact IEEE-754 binary64 values and the products
  `tokensUsed * 0.7` / `tokensUsed * 0.3` by exact round-to-nearest-even
  binary64 multiplication over `Nat` (see `jsFloorMulScaled`).
* `throw` / `try` / `catch` become explicit `Option AgentError` propagation.
* The network (`fetch`) is an oracle `Nat → List ConversationMessage → FetchResult`
  taking the index of the call and the truncated payload that is sent.
* `Date.now()` is an explicit `now : Nat` parameter.
-/

/-- `role: 'user' | 'assistant'` of a `ConversationMessage` (worker-types). -/
inductive Role where
  | user : Role
  | assistant : Role
deriving DecidableEq, Repr

/-- `ConversationMessage { role, content }` — one conversation history entry. -/
structure ConversationMessage where
  role : Role
  content : String
deriving DecidableEq, Repr

/-- `const CHARS_PER_TOKEN_ESTIMATE = 4`. -/
def CHARS_PER_TOKEN_ESTIMATE : Nat := 4

/-- `const MAX_AZURE_CONTEXT_TOKENS = 128000`. -/
def MAX_AZURE_CONTEXT_TOKENS : Nat := 128000

/-- `estimateTokens(text) = Math.ceil(text.length / CHARS_PER_TOKEN_ESTIMATE)`.
Division of a JavaScript integer below 2^53 by 4 is exact in binary64, so the
ceiling of the exact quotient, `(length + 3) / 4` over `Nat`, is the faithful
embedding. -/
def estimateTokens (text : String) : Nat :=
  (text.length + (CHARS_PER_TOKEN_ESTIMATE - 1)) / CHARS_PER_TOKEN_ESTIMATE

/-- `history.reduce((sum, m) => sum + this.estimateTokens(m.content), 0)` —
the per-entry estimated token sum of a history. -/
def historyTokens (h : List ConversationMessage) : Nat :=
  (h.map (fun m => estimateTokens m.content)).sum

/-- The backward loop of `truncateHistory` (`for (let i = history.length - 1; i >= 0; i--)`):
the argument list is the history *newest first* (i.e. reversed), `tokenCount` is the
running total of kept entries; the loop `break`s at the first entry whose tokens would
push the total over the budget and otherwise `unshift`s the entry, so the result here
is the kept block, still newest first. -/
def truncAux (budget : Nat) : List ConversationMessage → Nat → List ConversationMessage
  | [], _ => []
  | m :: rest, tokenCount =>
    if tokenCount + estimateTokens m.content > budget then []
    else m :: truncAux budget rest (tokenCount + estimateTokens m.content)

/-- `truncateHistory(history)`: if the per-entry estimated token sum is within
`MAX_AZURE_CONTEXT_TOKENS` the history is returned unchanged; otherwise entries are
collected newest-to-oldest until the next entry would exceed the budget
(`truncated.unshift(msg)` builds the kept block in original order, modelled by
reversing the newest-first block produced by `truncAux`). -/
def truncateHistory (history : List ConversationMessage) : List ConversationMessage :=
  if historyTokens history ≤ MAX_AZURE_CONTEXT_TOKENS then history
  else (truncAux MAX_AZURE_CONTEXT_TOKENS history.reverse 0).reverse

/-- Fuel-driven search for the smallest `d` with `x < 2 ^ (53 + d)`; fuel `x`
always suffices because `d` never needs to exceed the bit length of `x`. -/
def shiftLoop : Nat → Nat → Nat → Nat
  | 0, _, d => d
  | fuel + 1, x, d => if x < 2 ^ (53 + d) then d else shiftLoop fuel x (d + 1)

/-- Smallest `d` with `x < 2 ^ (53 + d)`: scaling `x` down by `2 ^ d` lands it in
the 53-bit mantissa range of binary64. -/
def doubleShift (x : Nat) : Nat := shiftLoop x x 0

/-- Round `x / y` (for `y > 0`) to the nearest integer, ties to even — the IEEE-754
round-to-nearest-even rule for a power-of-two denominator. -/
def roundHalfEvenDiv (x y : Nat) : Nat :=
  let q := x / y
  let r := x % y
  if 2 * r < y then q
  else if y < 2 * r then q + 1
  else if q % 2 = 0 then q else q + 1

/-- `Math.floor(t * c)` under JavaScript (IEEE-754 binary64) semantics, where the
double constant `c` has the exact value `mant / 2 ^ e`: the exact product
`t * mant / 2 ^ e` is rounded to the nearest representable double
(53-bit mantissa, round-to-nearest-even) and the result is floored. Faithful for
every `t` whose own double representation is exact (`t < 2 ^ 53`), which covers
every token count a backend can report. -/
def jsFloorMulScaled (mant e t : Nat) : Nat :=
  let x := t * mant
  let d := doubleShift x
  let m := roundHalfEvenDiv x (2 ^ d)
  (m * 2 ^ d) / 2 ^ e

/-- `Math.floor(tokensUsed * 0.7)` in binary64: the double literal `0.7` is exactly
`6305039478318694 / 2 ^ 53`. -/
def jsFloorMul07 (t : Nat) : Nat := jsFloorMulScaled 6305039478318694 53 t

/-- `Math.floor(tokensUsed * 0.3)` in binary64: the double literal `0.3` is exactly
`5404319552844595 / 2 ^ 54`. -/
def jsFloorMul03 (t : Nat) : Nat := jsFloorMulScaled 5404319552844595 54 t

/-- JavaScript `a || b` on strings: `''` is falsy, everything else truthy.
In the settings object an absent key behaves like `''` (both falsy), so absent
settings values are modelled as `""`. -/
def jsOrS (a b : String) : String := if a = "" then b else a

/-- `const DEFAULT_AZURE_API_VERSION = '2024-10-21'`. -/
def DEFAULT_AZURE_API_VERSION : String := "2024-10-21"

/-- The settings / credential sources read by `getAzureOpenAIConfig`:
the `CLAUDE_MEM_AZURE_OPENAI_*` keys of the user settings file and the
`AZURE_OPENAI_API_KEY` credential from `getCredential`. `""` models an
absent value (absent and empty are both falsy under `||`). -/
structure AzureSettings where
  claudeMemAzureApiKey : String
  claudeMemAzureEndpoint : String
  claudeMemAzureModel : String
  claudeMemAzureApiVersion : String
  envAzureApiKey : String
deriving DecidableEq, Repr

/-- The `{ apiKey, endpoint, model, apiVersion }` record returned by
`getAzureOpenAIConfig`. -/
structure AzureConfig where
  apiKey : String
  endpoint : String
  model : String
  apiVersion : String
deriving DecidableEq, Repr

/-- `getAzureOpenAIConfig()`: each field falls through `settings value || fallback`,
the api version defaulting to `DEFAULT_AZURE_API_VERSION`. -/
def getAzureOpenAIConfig (st : AzureSettings) : AzureConfig :=
  { apiKey := jsOrS st.claudeMemAzureApiKey (jsOrS st.envAzureApiKey "")
    endpoint := jsOrS st.claudeMemAzureEndpoint ""
    model := jsOrS st.claudeMemAzureModel ""
    apiVersion := jsOrS st.claudeMemAzureApiVersion DEFAULT_AZURE_API_VERSION }

/-- The failure classes that can be raised inside `startSession` /
`queryAzureOpenAIMultiTurn`. In the source all of these are `Error` values
distinguished by their message text (and by `isAbortError`); the constructors
record the data each message is built from. -/
inductive AgentError where
  | configError (msg : String)
  | transportError (status : Nat) (body : String)
  | providerError (code : String) (msg : String)
  | preconditionError (msg : String)
  | abortError
deriving DecidableEq, Repr

/-- Modelled from the spec: `isAbortError` lives in `agents/index.js`, which is not
part of the analyzed source. Per the spec, "Cancellation is distinguished from
ordinary failure": it recognises exactly the cancellation of the enclosing
operation. -/
def isAbortError : AgentError → Bool
  | .abortError => true
  | _ => false

/-- Modelled from the spec: `shouldFallbackToClaude` lives in `agents/index.js`,
which is not part of the analyzed source. Per the spec, "A failure is
retryable-to-fallback if it is a configuration, transport, or provider error on
the *current* backend (not a cancellation)", and `PreconditionFailed` is fatal
for the item rather than retryable. -/
def shouldFallbackToClaude : AgentError → Bool
  | .configError _ => true
  | .transportError _ _ => true
  | .providerError _ _ => true
  | .preconditionError _ => false
  | .abortError => false

/-- `data.error` of an `AzureChatCompletionsResponse`: `{ message?, code? }`. -/
structure AzureErrorPayload where
  code : Option String
  msg : Option String
deriving DecidableEq, Repr

/-- The fields of a parsed `AzureChatCompletionsResponse` that
`queryAzureOpenAIMultiTurn` reads: `choices?.[0]?.message?.content`
(`none` when any link of the optional chain is missing), `usage?.total_tokens`,
and `error`. -/
structure AzureChatCompletionsResponse where
  content : Option String
  totalTokens : Option Nat
  errorField : Option AzureErrorPayload
deriving DecidableEq, Repr

/-- Outcome of one `fetch` of the Azure chat-completions endpoint:
a parsed JSON body on `response.ok`, a non-2xx status with its body text,
or rejection with an abort error (the enclosing operation was cancelled). -/
inductive FetchResult where
  | ok (data : AzureChatCompletionsResponse)
  | httpError (status : Nat) (body : String)
  | aborted
deriving DecidableEq, Repr

/-- The network oracle standing for the Azure REST endpoint: given the index of
the call within the session pass and the (already truncated) outgoing message
payload, it produces the behaviour of that `fetch`. The `apiKey`, `endpoint`,
`model` and `apiVersion` arguments of the source function only shape the URL and
headers of the request and are absorbed by the oracle. -/
def Backend : Type := Nat → List ConversationMessage → FetchResult

/-- The `{ content, tokensUsed? }` value returned by `queryAzureOpenAIMultiTurn`. -/
structure QueryReply where
  content : String
  tokensUsed : Option Nat
deriving DecidableEq, Repr

/-- `queryAzureOpenAIMultiTurn(history, ...)`: truncate the history, send it, then
`throw` on a non-ok response (`Azure OpenAI API error: status - body`), `throw`
on a `data.error` payload (with `code || 'unknown'` and `message || 'Unknown
error'`), return `{ content: '' }` when no content is extractable (`!content`
is also true for `content === ''`), and otherwise return the content together
with `usage?.total_tokens`. -/
def queryAzureOpenAIMultiTurn (backend : Backend) (callIdx : Nat)
    (history : List ConversationMessage) : Except AgentError QueryReply :=
  let truncatedHistory := truncateHistory history
  match backend callIdx truncatedHistory with
  | .aborted => .error .abortError
  | .httpError status body => .error (.transportError status body)
  | .ok data =>
    match data.errorField with
    | some e => .error (.providerError (e.code.getD "unknown") (e.msg.getD "Unknown error"))
    | none =>
      match data.content with
      | none => .ok { content := "", tokensUsed := none }
      | some c =>
        if c = "" then .ok { content := "", tokensUsed := none }
        else .ok { content := c, tokensUsed := data.totalTokens }

/-- One backend call as recorded for a session pass: the session's in-memory
conversation history at the moment of the call, and the payload actually sent,
which is always its truncation. -/
structure QueryCall where
  history : List ConversationMessage
  payload : List ConversationMessage
deriving DecidableEq, Repr

/-- The fields of an `ActiveSession` (worker-types) that the Azure agent reads or
writes. `conversationHistory` is the authoritative in-memory history;
`processingMessageIds` is the set (in arrival order) of work-item persistent ids
already folded into this pass. -/
structure ActiveSession where
  sessionDbId : Nat
  contentSessionId : String
  memorySessionId : Option String
  project : String
  userPrompt : String
  lastPromptNumber : Nat
  cumulativeInputTokens : Nat
  cumulativeOutputTokens : Nat
  conversationHistory : List ConversationMessage
  processingMessageIds : List Nat
  earliestPendingTimestamp : Option Nat
  startTime : Nat
deriving DecidableEq, Repr

/-- The type-specific payload of a queued message: `message.type === 'observation'`
carries `tool_name`, the JSON string forms of `tool_input` / `tool_response`
(the source serialises them with `JSON.stringify` at prompt-build time; the
fields here hold the resulting strings) and the optional `prompt_number`;
`message.type === 'summarize'` carries the optional `last_assistant_message`. -/
inductive WorkItemData where
  | observation (toolName : String) (toolInputJson : String) (toolResponseJson : String)
      (promptNumber : Option Nat)
  | summarize (lastAssistantMessage : Option String)
deriving DecidableEq, Repr

/-- One message yielded by `sessionManager.getMessageIterator`: a persistent id
(`message._persistentId`), an optional working directory (`message.cwd`,
`none` models an absent field), and the type-specific payload. -/
structure WorkItem where
  persistentId : Nat
  cwd : Option String
  typeData : WorkItemData
deriving DecidableEq, Repr

/-- JavaScript truthiness of `message.cwd`: absent and `''` are falsy. -/
def jsTruthyCwd : Option String → Bool
  | some s => s ≠ ""
  | none => false

/-- The argument record of `buildObservationPrompt`
(`{ id: 0, tool_name, tool_input, tool_output, created_at_epoch, cwd }`). -/
structure ObservationPromptInput where
  id : Nat
  toolName : String
  toolInput : String
  toolOutput : String
  createdAtEpoch : Nat
  cwd : Option String
deriving DecidableEq, Repr

/-- The argument record of `buildSummaryPrompt`
(`{ id, memory_session_id, project, user_prompt, last_assistant_message }`). -/
structure SummaryPromptInput where
  id : Nat
  memorySessionId : String
  project : String
  userPrompt : String
  lastAssistantMessage : String
deriving DecidableEq, Repr

/-- The collaborators and ambient inputs of one `startSession` pass: the loaded
settings, the active mode (`ModeManager.getInstance().getActiveMode()`), the
wall clock (`Date.now()`), the network oracle, and the four prompt templates
from `sdk/prompts.js`. The prompt builders are pure text templates explicitly
out of scope for the spec, so they are carried as opaque function parameters. -/
structure AgentEnv where
  settings : AzureSettings
  mode : String
  now : Nat
  backend : Backend
  buildInitPrompt : String → String → String → String → String
  buildContinuationPrompt : String → Nat → String → String → String
  buildObservationPrompt : ObservationPromptInput → String
  buildSummaryPrompt : SummaryPromptInput → String → String

/-- `if (response.content) { ... }`: append the reply as an `assistant` entry and
apply the heuristic 70/30 input/output split of the reported total
(`tokensUsed || 0`) to the cumulative counters — executed only for non-empty
content; an empty reply leaves the session untouched. This block occurs
verbatim three times in `startSession` (init, observation, summarize). -/
def applyReply (s : ActiveSession) (reply : QueryReply) : ActiveSession :=
  if reply.content = "" then s
  else
    let tokensUsed := reply.tokensUsed.getD 0
    { s with
      conversationHistory := s.conversationHistory ++ [⟨.assistant, reply.content⟩]
      cumulativeInputTokens := s.cumulativeInputTokens + jsFloorMul07 tokensUsed
      cumulativeOutputTokens := s.cumulativeOutputTokens + jsFloorMul03 tokensUsed }

/-- Result of one prompt/query/reply round: the session afterwards, the error
thrown by the query (if any), and the backend call made. -/
structure QueryStep where
  session : ActiveSession
  thrown : Option AgentError
  calls : List QueryCall
deriving Repr

/-- The prompt/query/reply round `startSession` performs for the init prompt and
for each work item: `session.conversationHistory.push({ role: 'user', content:
prompt })`, then `queryAzureOpenAIMultiTurn(session.conversationHistory, ...)`,
then `applyReply` on success. The mutations made before a thrown query error
persist (the just-appended user entry stays in the history). The reply is then
handed to `processAgentResponse` — an external collaborator (the Response
Processor of `agents/index.js`, not part of the analyzed source); modelled from
the spec, it parses and persists the reply and does not mutate the session's
orchestration state, so it leaves no trace here. -/
def queryAndAppend (env : AgentEnv) (callIdx : Nat) (s : ActiveSession)
    (prompt : String) : QueryStep :=
  let s' := { s with conversationHistory := s.conversationHistory ++ [⟨.user, prompt⟩] }
  let call : QueryCall := ⟨s'.conversationHistory, truncateHistory s'.conversationHistory⟩
  match queryAzureOpenAIMultiTurn env.backend callIdx s'.conversationHistory with
  | .error e => { session := s', thrown := some e, calls := [call] }
  | .ok reply => { session := applyReply s' reply, thrown := none, calls := [call] }

/-- The mutable state threaded through the `for await` loop of `startSession`:
the session object, the index of the next backend call (feeding the oracle) and
the loop-local `lastCwd` variable. -/
structure LoopState where
  session : ActiveSession
  callIdx : Nat
  lastCwd : Option String
deriving Repr

/-- Result of one loop iteration (or of a whole loop run): the state after it,
the error that was thrown (if any — session mutations made before the `throw`
persist, since the session is a shared mutable object), and the backend calls
made. -/
structure StepResult where
  state : LoopState
  thrown : Option AgentError
  calls : List QueryCall
deriving Repr

/-- The synthetic memory session id generated when Azure OpenAI (a stateless
backend) has not bound one yet:
`` `azure-openai-${session.contentSessionId}-${Date.now()}` ``. -/
def syntheticMemorySessionId (contentSessionId : String) (now : Nat) : String :=
  "azure-openai-" ++ contentSessionId ++ "-" ++ toString now

/-- The body of one iteration of the `for await (const message of ...)` loop of
`startSession`: push the persistent id onto `processingMessageIds`, update
`lastCwd` when `message.cwd` is truthy, and dispatch on the message type.
An observation first records its `prompt_number` (when present), checks the
`memorySessionId` precondition, appends the observation prompt as a `user`
entry, queries the backend on the full history, and appends the reply as an
`assistant` entry plus the 70/30 token split only when the content is
non-empty. A summarize item does the same with the summary prompt and without
a prompt-number update. `processAgentResponse` is an external collaborator
(the Response Processor, `agents/index.js`, not part of the analyzed source);
modelled from the spec, it parses and persists the reply and does not mutate
the session's orchestration state, so it leaves no trace here. -/
def processWorkItem (env : AgentEnv) (st : LoopState) (msg : WorkItem) : StepResult :=
  let s0 := st.session
  let s1 := { s0 with processingMessageIds := s0.processingMessageIds ++ [msg.persistentId] }
  let lastCwd := if jsTruthyCwd msg.cwd then msg.cwd else st.lastCwd
  let originalTimestamp := s1.earliestPendingTimestamp
  match msg.typeData with
  | .observation toolName toolInputJson toolResponseJson promptNumber =>
    let s2 := match promptNumber with
      | some n => { s1 with lastPromptNumber := n }
      | none => s1
    match s2.memorySessionId with
    | none =>
      { state := { session := s2, callIdx := st.callIdx, lastCwd := lastCwd }
        thrown := some (.preconditionError "Cannot process observations: memorySessionId not yet captured. This session may need to be reinitialized.")
        calls := [] }
    | some _ =>
      let obsPrompt := env.buildObservationPrompt
        { id := 0, toolName := toolName, toolInput := toolInputJson
          toolOutput := toolResponseJson
          createdAtEpoch := originalTimestamp.getD env.now, cwd := msg.cwd }
      let q := queryAndAppend env st.callIdx s2 obsPrompt
      { state := { session := q.session, callIdx := st.callIdx + 1, lastCwd := lastCwd }
        thrown := q.thrown, calls := q.calls }
  | .summarize lastAssistantMessage =>
    match s1.memorySessionId with
    | none =>
      { state := { session := s1, callIdx := st.callIdx, lastCwd := lastCwd }
        thrown := some (.preconditionError "Cannot process summary: memorySessionId not yet captured. This session may need to be reinitialized.")
        calls := [] }
    | some mid =>
      let summaryPrompt := env.buildSummaryPrompt
        { id := s1.sessionDbId, memorySessionId := mid, project := s1.project
          userPrompt := s1.userPrompt
          lastAssistantMessage := lastAssistantMessage.getD "" } env.mode
      let q := queryAndAppend env st.callIdx s1 summaryPrompt
      { state := { session := q.session, callIdx := st.callIdx + 1, lastCwd := lastCwd }
        thrown := q.thrown, calls := q.calls }

/-- The `for await` loop of `startSession` over the message iterator: process
items in order, stopping at the first thrown error (which propagates to the
enclosing `catch` with the session mutations made so far). -/
def runLoop (env : AgentEnv) (st : LoopState) : List WorkItem → StepResult
  | [] => { state := st, thrown := none, calls := [] }
  | msg :: rest =>
    let r := processWorkItem env st msg
    match r.thrown with
    | some _ => r
    | none =>
      let r' := runLoop env r.state rest
      { state := r'.state, thrown := r'.thrown, calls := r.calls ++ r'.calls }

/-- `if (!session.memorySessionId) { session.memorySessionId = ... }`: since Azure
OpenAI is stateless, a synthetic handle is generated and bound once when none is
bound yet (and also persisted via `updateMemorySessionId`, a storage
side-effect outside the orchestration state); a session that already carries a
handle is left untouched. -/
def ensureMemorySessionId (s : ActiveSession) (now : Nat) : ActiveSession :=
  match s.memorySessionId with
  | some _ => s
  | none => { s with
      memorySessionId := some (syntheticMemorySessionId s.contentSessionId now) }

/-- Result of the `try` block of `startSession`: the session object afterwards
(mutations made before a `throw` persist), the error that was thrown if any,
and every Azure backend call that was made. -/
structure BodyResult where
  session : ActiveSession
  thrown : Option AgentError
  calls : List QueryCall
deriving Repr

/-- The part of `startSession`'s `try` block after the config checks and handle
binding: run the init (or continuation) prompt round, propagating a thrown query
error with the session as mutated so far, and otherwise drain the message
iterator via the loop. -/
def startSessionRun (env : AgentEnv) (s1 : ActiveSession) (initPrompt : String)
    (items : List WorkItem) : BodyResult :=
  let q := queryAndAppend env 0 s1 initPrompt
  match q.thrown with
  | some e => { session := q.session, thrown := some e, calls := q.calls }
  | none =>
    let r := runLoop env { session := q.session, callIdx := 1, lastCwd := none } items
    { session := r.state.session, thrown := r.thrown, calls := q.calls ++ r.calls }

/-- The `try` block of `startSession(session, worker)`: load the config and fail
with the two configuration errors before anything else; bind a synthetic
`memorySessionId` if none is bound; build the init prompt
(`lastPromptNumber === 1`) or the continuation prompt, append it as a `user`
entry, query the backend, and on non-empty content append the `assistant`
entry, apply the 70/30 token split and hand the reply to the Response
Processor; finally drain the message iterator via the loop. -/
def startSessionBody (env : AgentEnv) (session : ActiveSession)
    (items : List WorkItem) : BodyResult :=
  let cfg := getAzureOpenAIConfig env.settings
  if cfg.apiKey = "" then
    { session := session
      thrown := some (.configError "Azure OpenAI API key not configured. Set CLAUDE_MEM_AZURE_OPENAI_API_KEY in settings or AZURE_OPENAI_API_KEY environment variable.")
      calls := [] }
  else if cfg.endpoint = "" ∨ cfg.model = "" then
    { session := session
      thrown := some (.configError "Azure OpenAI endpoint or model not configured. Set CLAUDE_MEM_AZURE_OPENAI_ENDPOINT and CLAUDE_MEM_AZURE_OPENAI_MODEL in settings.")
      calls := [] }
  else
    let s1 := ensureMemorySessionId session env.now
    let initPrompt := if s1.lastPromptNumber = 1 then
        env.buildInitPrompt s1.project s1.contentSessionId s1.userPrompt env.mode
      else
        env.buildContinuationPrompt s1.userPrompt s1.lastPromptNumber s1.contentSessionId env.mode
    startSessionRun env s1 initPrompt items

/-- How a `startSession` pass ends: normal completion, delegation of the whole
pass to the fallback agent (`return this.fallbackAgent.startSession(session,
worker)`) with the error that triggered it and the session state handed over,
or rethrow of the error to the caller. -/
inductive SessionOutcome where
  | completed
  | fellBack (err : AgentError) (handed : ActiveSession)
  | failed (err : AgentError)
deriving DecidableEq, Repr

/-- Result of `startSession`: its outcome, the session object's state after the
call, and the Azure backend calls made during the pass. -/
structure StartResult where
  outcome : SessionOutcome
  session : ActiveSession
  calls : List QueryCall
deriving Repr

/-- `startSession(session, worker)` including its `catch`: abort errors are
rethrown at once; otherwise, when `shouldFallbackToClaude(error)` holds and a
fallback agent is set, the pass is rerun by the fallback agent on the session
object exactly as the failing pass left it; any other error is rethrown.
`hasFallbackAgent` models whether `setFallbackAgent` was called. -/
def startSession (env : AgentEnv) (hasFallbackAgent : Bool) (session : ActiveSession)
    (items : List WorkItem) : StartResult :=
  let body := startSessionBody env session items
  match body.thrown with
  | none => { outcome := .completed, session := body.session, calls := body.calls }
  | some e =>
    if isAbortError e then
      { outcome := .failed e, session := body.session, calls := body.calls }
    else if shouldFallbackToClaude e && hasFallbackAgent then
      { outcome := .fellBack e body.session, session := body.session, calls := body.calls }
    else
      { outcome := .failed e, session := body.session, calls := body.calls }

/-- A failure of the backend call itself (non-2xx transport response or an
application-level error payload), as opposed to a configuration, precondition
or cancellation failure raised outside the call. -/
def isBackendFailure : AgentError → Bool
  | .transportError _ _ => true
  | .providerError _ _ => true
  | _ => false

theorem historyTokens_nil : historyTokens [] = 0 := rfl

theorem historyTokens_cons (m : ConversationMessage) (l : List ConversationMessage) :
    historyTokens (m :: l) = estimateTokens m.content + historyTokens l := by
  simp [historyTokens]

theorem historyTokens_reverse (l : List ConversationMessage) :
    historyTokens l.reverse = historyTokens l := by
  simp [historyTokens, List.sum_reverse]

theorem truncAux_isPrefixOf (b : Nat) :
    ∀ (l : List ConversationMessage) (c : Nat), truncAux b l c <+: l
  | [], _ => by simp [truncAux]
  | m :: rest, c => by
    by_cases hc : c + estimateTokens m.content > b
    · simp [truncAux, hc]
    · simp only [truncAux, if_neg hc]
      obtain ⟨t, ht⟩ := truncAux_isPrefixOf b rest (c + estimateTokens m.content)
      exact ⟨t, by simp [ht]⟩

theorem truncAux_tokens (b : Nat) :
    ∀ (l : List ConversationMessage) (c : Nat), c ≤ b →
      c + historyTokens (truncAux b l c) ≤ b
  | [], c, hc => by simpa [truncAux, historyTokens] using hc
  | m :: rest, c, hc => by
    by_cases hov : c + estimateTokens m.content > b
    · simpa [truncAux, hov, historyTokens] using hc
    · have h' := truncAux_tokens b rest (c + estimateTokens m.content) (le_of_not_lt hov)
      simp only [truncAux, if_neg hov, historyTokens_cons]
      omega

theorem truncAux_cons_of_le (b : Nat) (m : ConversationMessage)
    (rest : List ConversationMessage) (hm : estimateTokens m.content ≤ b) :
    truncAux b (m :: rest) 0 = m :: truncAux b rest (estimateTokens m.content) := by
  have hnot : ¬ (estimateTokens m.content > b) := by omega
  simp only [truncAux, Nat.zero_add, if_neg hnot]

/-- C10: when the per-entry estimated token sum of a history is within the
128000-token ceiling, `truncateHistory` is the identity — no entry is dropped,
reordered or altered. -/
theorem truncateHistory_id_of_within_budget (h : List ConversationMessage)
    (hle : historyTokens h ≤ MAX_AZURE_CONTEXT_TOKENS) :
    truncateHistory h = h := by
  simp [truncateHistory, hle]

/-- C10 witness: a one-entry history well within the budget is returned as is. -/
theorem truncateHistory_id_of_within_budget_witness :
    historyTokens [ConversationMessage.mk .user "hi"] ≤ MAX_AZURE_CONTEXT_TOKENS ∧
    truncateHistory [ConversationMessage.mk .user "hi"] = [ConversationMessage.mk .user "hi"] :=
  ⟨by decide, truncateHistory_id_of_within_budget _ (by decide)⟩

/-- C1 (amended): for a history whose estimated token sum exceeds the ceiling, the
truncated payload is a suffix of it in original order, its estimated token sum is
at most the ceiling, the cut is at whole-entry granularity (the payload is a
sublist of untouched entries), and the newest entry is retained *provided its own
token estimate is at most the ceiling* (a lone entry estimated above the ceiling
is itself dropped — see the counterexample). -/
theorem truncateHistory_suffix_spec (h : List ConversationMessage)
    (m : ConversationMessage)
    (hover : MAX_AZURE_CONTEXT_TOKENS < historyTokens h)
    (hlast : h.getLast? = some m)
    (hm : estimateTokens m.content ≤ MAX_AZURE_CONTEXT_TOKENS) :
    truncateHistory h <:+ h ∧
    historyTokens (truncateHistory h) ≤ MAX_AZURE_CONTEXT_TOKENS ∧
    (truncateHistory h).getLast? = some m := by
  have hnot : ¬ historyTokens h ≤ MAX_AZURE_CONTEXT_TOKENS := by omega
  have htr : truncateHistory h = (truncAux MAX_AZURE_CONTEXT_TOKENS h.reverse 0).reverse := by
    simp [truncateHistory, hnot]
  refine ⟨?_, ?_, ?_⟩
  · rw [htr]
    have := List.reverse_suffix.mpr (truncAux_isPrefixOf MAX_AZURE_CONTEXT_TOKENS h.reverse 0)
    simpa using this
  · rw [htr, historyTokens_reverse]
    have := truncAux_tokens MAX_AZURE_CONTEXT_TOKENS h.reverse 0 (Nat.zero_le _)
    omega
  · have hhead : h.reverse.head? = some m := by
      rw [List.head?_reverse, hlast]
    obtain ⟨rest, hrest⟩ : ∃ rest, h.reverse = m :: rest := by
      cases hrev : h.reverse with
      | nil => rw [hrev] at hhead; simp at hhead
      | cons a t =>
        rw [hrev] at hhead
        simp only [List.head?_cons, Option.some.injEq] at hhead
        exact ⟨t, by rw [hhead]⟩
    rw [htr, hrest, truncAux_cons_of_le _ _ _ hm]
    simp

/-- The newest-first entry used in the C1 counterexample and witness: 512004
characters estimate to 128001 tokens, one over the ceiling. -/
def bigEntry : ConversationMessage := ⟨.user, String.mk (List.replicate 512004 'a')⟩

/-- A two-character entry, estimating to 1 token. -/
def tinyEntry : ConversationMessage := ⟨.user, "hi"⟩

theorem estimateTokens_replicate (n : Nat) (c : Char) :
    estimateTokens (String.mk (List.replicate n c)) = (n + 3) / 4 := by
  simp [estimateTokens, String.length, CHARS_PER_TOKEN_ESTIMATE]

theorem estimateTokens_bigEntry : estimateTokens bigEntry.content = 128001 := by
  show estimateTokens (String.mk (List.replicate 512004 'a')) = 128001
  rw [estimateTokens_replicate]

/-- C1 counterexample: the claim that the newest entry is never dropped fails on a
one-entry history whose single (hence newest) entry is estimated above the
ceiling: the whole history exceeds the budget, yet `truncateHistory` returns the
empty payload, dropping the newest entry. -/
theorem truncateHistory_drops_newest_counterexample :
    MAX_AZURE_CONTEXT_TOKENS < historyTokens [bigEntry] ∧
    truncateHistory [bigEntry] = [] ∧
    bigEntry ∉ truncateHistory [bigEntry] := by
  have hhist : historyTokens [bigEntry] = 128001 := by
    rw [historyTokens_cons, estimateTokens_bigEntry, historyTokens_nil]
  have hover : MAX_AZURE_CONTEXT_TOKENS < historyTokens [bigEntry] := by
    rw [hhist]; decide
  have hempty : truncateHistory [bigEntry] = [] := by
    have hnot : ¬ historyTokens [bigEntry] ≤ MAX_AZURE_CONTEXT_TOKENS := by
      rw [hhist]; decide
    have hov : 0 + estimateTokens bigEntry.content > MAX_AZURE_CONTEXT_TOKENS := by
      rw [estimateTokens_bigEntry]; decide
    have h1 : [bigEntry].reverse = [bigEntry] := rfl
    rw [truncateHistory, if_neg hnot, h1, truncAux, if_pos hov, List.reverse_nil]
  exact ⟨hover, hempty, by rw [hempty]; exact List.not_mem_nil bigEntry⟩

/-- C1 witness: a history of a 128001-token entry followed by a 1-token entry
exceeds the ceiling; its truncation is a suffix within budget that still ends in
(indeed consists of) the newest entry. -/
theorem truncateHistory_suffix_spec_witness :
    MAX_AZURE_CONTEXT_TOKENS < historyTokens [bigEntry, tinyEntry] ∧
    [bigEntry, tinyEntry].getLast? = some tinyEntry ∧
    estimateTokens tinyEntry.content ≤ MAX_AZURE_CONTEXT_TOKENS ∧
    (truncateHistory [bigEntry, tinyEntry] <:+ [bigEntry, tinyEntry] ∧
     historyTokens (truncateHistory [bigEntry, tinyEntry]) ≤ MAX_AZURE_CONTEXT_TOKENS ∧
     (truncateHistory [bigEntry, tinyEntry]).getLast? = some tinyEntry) := by
  have htiny : estimateTokens tinyEntry.content = 1 := by decide
  have hover : MAX_AZURE_CONTEXT_TOKENS < historyTokens [bigEntry, tinyEntry] := by
    rw [historyTokens_cons, historyTokens_cons, estimateTokens_bigEntry, htiny,
      historyTokens_nil]
    decide
  exact ⟨hover, rfl, by rw [htiny]; decide,
    truncateHistory_suffix_spec _ _ hover rfl (by rw [htiny]; decide)⟩


theorem query_error_shape (backend : Backend) (i : Nat) (h : List ConversationMessage)
    (e : AgentError) (he : queryAzureOpenAIMultiTurn backend i h = .error e) :
    isBackendFailure e = true ∨ e = .abortError := by
  simp only [queryAzureOpenAIMultiTurn] at he
  split at he
  · injection he with h'; exact Or.inr h'.symm
  · injection he with h'; rw [← h']; exact Or.inl rfl
  · split at he
    · injection he with h'; rw [← h']; exact Or.inl rfl
    · split at he
      · exact absurd he (by simp)
      · split at he <;> exact absurd he (by simp)

theorem query_empty_content (backend : Backend) (i : Nat) (h : List ConversationMessage)
    (data : AzureChatCompletionsResponse)
    (hb : backend i (truncateHistory h) = .ok data)
    (herr : data.errorField = none)
    (hc : data.content = none ∨ data.content = some "") :
    queryAzureOpenAIMultiTurn backend i h = .ok { content := "", tokensUsed := none } := by
  simp only [queryAzureOpenAIMultiTurn, hb, herr]
  rcases hc with hc | hc <;> simp [hc]

theorem query_full_content (backend : Backend) (i : Nat) (h : List ConversationMessage)
    (data : AzureChatCompletionsResponse) (c : String)
    (hb : backend i (truncateHistory h) = .ok data)
    (herr : data.errorField = none)
    (hc : data.content = some c) (hne : c ≠ "") :
    queryAzureOpenAIMultiTurn backend i h = .ok { content := c, tokensUsed := data.totalTokens } := by
  simp only [queryAzureOpenAIMultiTurn, hb, herr, hc]
  simp [hne]

theorem applyReply_empty (s : ActiveSession) (r : QueryReply) (hr : r.content = "") :
    applyReply s r = s := by
  simp [applyReply, hr]

theorem applyReply_nonempty (s : ActiveSession) (r : QueryReply) (hr : r.content ≠ "") :
    applyReply s r = { s with
      conversationHistory := s.conversationHistory ++ [⟨.assistant, r.content⟩]
      cumulativeInputTokens := s.cumulativeInputTokens + jsFloorMul07 (r.tokensUsed.getD 0)
      cumulativeOutputTokens := s.cumulativeOutputTokens + jsFloorMul03 (r.tokensUsed.getD 0) } := by
  simp [applyReply, hr]

theorem applyReply_history_grows (s : ActiveSession) (r : QueryReply) :
    s.conversationHistory <+: (applyReply s r).conversationHistory := by
  by_cases hr : r.content = ""
  · rw [applyReply_empty s r hr]
  · rw [applyReply_nonempty s r hr]
    exact List.prefix_append _ _

theorem applyReply_memoryId (s : ActiveSession) (r : QueryReply) :
    (applyReply s r).memorySessionId = s.memorySessionId := by
  by_cases hr : r.content = ""
  · rw [applyReply_empty s r hr]
  · rw [applyReply_nonempty s r hr]

theorem applyReply_processing (s : ActiveSession) (r : QueryReply) :
    (applyReply s r).processingMessageIds = s.processingMessageIds := by
  by_cases hr : r.content = ""
  · rw [applyReply_empty s r hr]
  · rw [applyReply_nonempty s r hr]

theorem queryAndAppend_calls (env : AgentEnv) (i : Nat) (s : ActiveSession) (p : String) :
    (queryAndAppend env i s p).calls =
      [⟨s.conversationHistory ++ [⟨.user, p⟩],
        truncateHistory (s.conversationHistory ++ [⟨.user, p⟩])⟩] := by
  simp only [queryAndAppend]
  split <;> rfl

theorem queryAndAppend_thrown_session (env : AgentEnv) (i : Nat) (s : ActiveSession)
    (p : String) (e : AgentError) (he : (queryAndAppend env i s p).thrown = some e) :
    (queryAndAppend env i s p).session =
      { s with conversationHistory := s.conversationHistory ++ [⟨.user, p⟩] } ∧
    queryAzureOpenAIMultiTurn env.backend i (s.conversationHistory ++ [⟨.user, p⟩]) = .error e := by
  simp only [queryAndAppend] at he ⊢
  split at he
  case h_1 e' hq =>
    simp only at he
    injection he with h'
    subst h'
    exact ⟨rfl, hq⟩
  case h_2 reply hq => exact absurd he (by simp)

theorem queryAndAppend_ok_session (env : AgentEnv) (i : Nat) (s : ActiveSession)
    (p : String) (reply : QueryReply)
    (hq : queryAzureOpenAIMultiTurn env.backend i (s.conversationHistory ++ [⟨.user, p⟩]) = .ok reply) :
    (queryAndAppend env i s p).session =
      applyReply { s with conversationHistory := s.conversationHistory ++ [⟨.user, p⟩] } reply ∧
    (queryAndAppend env i s p).thrown = none := by
  simp only [queryAndAppend, hq]
  exact ⟨trivial, trivial⟩

theorem queryAndAppend_history_grows (env : AgentEnv) (i : Nat) (s : ActiveSession)
    (p : String) :
    s.conversationHistory ++ [⟨.user, p⟩] <+:
      (queryAndAppend env i s p).session.conversationHistory := by
  simp only [queryAndAppend]
  split
  · exact List.prefix_refl _
  case h_2 reply hq =>
    exact applyReply_history_grows
      { s with conversationHistory := s.conversationHistory ++ [⟨.user, p⟩] } reply

theorem queryAndAppend_memoryId (env : AgentEnv) (i : Nat) (s : ActiveSession) (p : String) :
    (queryAndAppend env i s p).session.memorySessionId = s.memorySessionId := by
  simp only [queryAndAppend]
  split
  · rfl
  case h_2 reply hq =>
    exact applyReply_memoryId
      { s with conversationHistory := s.conversationHistory ++ [⟨.user, p⟩] } reply

theorem queryAndAppend_processing (env : AgentEnv) (i : Nat) (s : ActiveSession) (p : String) :
    (queryAndAppend env i s p).session.processingMessageIds = s.processingMessageIds := by
  simp only [queryAndAppend]
  split
  · rfl
  case h_2 reply hq =>
    exact applyReply_processing
      { s with conversationHistory := s.conversationHistory ++ [⟨.user, p⟩] } reply


/-- Every loop iteration either fails its `memorySessionId` precondition — making
no backend call and touching nothing but `processingMessageIds` — or reduces to a
`queryAndAppend` round from a session that has the item's persistent id appended
and all of history, handle, counters unchanged. -/
theorem processWorkItem_shape (env : AgentEnv) (st : LoopState) (m : WorkItem) :
    (∃ msg, st.session.memorySessionId = none ∧
        (processWorkItem env st m).calls = [] ∧
        (processWorkItem env st m).thrown = some (.preconditionError msg) ∧
        (processWorkItem env st m).state.session.conversationHistory =
          st.session.conversationHistory ∧
        (processWorkItem env st m).state.session.memorySessionId =
          st.session.memorySessionId ∧
        (processWorkItem env st m).state.session.cumulativeInputTokens =
          st.session.cumulativeInputTokens ∧
        (processWorkItem env st m).state.session.cumulativeOutputTokens =
          st.session.cumulativeOutputTokens ∧
        (processWorkItem env st m).state.session.processingMessageIds =
          st.session.processingMessageIds ++ [m.persistentId]) ∨
    (∃ s2 prompt,
        (processWorkItem env st m).state.session = (queryAndAppend env st.callIdx s2 prompt).session ∧
        (processWorkItem env st m).thrown = (queryAndAppend env st.callIdx s2 prompt).thrown ∧
        (processWorkItem env st m).calls = (queryAndAppend env st.callIdx s2 prompt).calls ∧
        s2.conversationHistory = st.session.conversationHistory ∧
        s2.memorySessionId = st.session.memorySessionId ∧
        s2.cumulativeInputTokens = st.session.cumulativeInputTokens ∧
        s2.cumulativeOutputTokens = st.session.cumulativeOutputTokens ∧
        s2.processingMessageIds = st.session.processingMessageIds ++ [m.persistentId]) := by
  obtain ⟨⟨sid, csid, mem, proj, upr, lpn, cit, cot, hist, pmi, ept, stt⟩, ci, lc⟩ := st
  obtain ⟨pid, cwd, td⟩ := m
  cases td with
  | observation tn ti tr pn =>
    cases pn with
    | none =>
      cases mem with
      | none => exact Or.inl ⟨_, rfl, rfl, rfl, rfl, rfl, rfl, rfl, rfl⟩
      | some mid => exact Or.inr ⟨_, _, rfl, rfl, rfl, rfl, rfl, rfl, rfl, rfl⟩
    | some n =>
      cases mem with
      | none => exact Or.inl ⟨_, rfl, rfl, rfl, rfl, rfl, rfl, rfl, rfl⟩
      | some mid => exact Or.inr ⟨_, _, rfl, rfl, rfl, rfl, rfl, rfl, rfl, rfl⟩
  | summarize lam =>
    cases mem with
    | none => exact Or.inl ⟨_, rfl, rfl, rfl, rfl, rfl, rfl, rfl, rfl⟩
    | some mid => exact Or.inr ⟨_, _, rfl, rfl, rfl, rfl, rfl, rfl, rfl, rfl⟩

theorem processWorkItem_memoryId (env : AgentEnv) (st : LoopState) (m : WorkItem) :
    (processWorkItem env st m).state.session.memorySessionId = st.session.memorySessionId := by
  rcases processWorkItem_shape env st m with
    ⟨msg, _, _, _, _, hmem, _⟩ | ⟨s2, p, hsess, _, _, _, hmem2, _⟩
  · exact hmem
  · rw [hsess, queryAndAppend_memoryId]; exact hmem2

theorem processWorkItem_history_grows (env : AgentEnv) (st : LoopState) (m : WorkItem) :
    st.session.conversationHistory <+:
      (processWorkItem env st m).state.session.conversationHistory := by
  rcases processWorkItem_shape env st m with
    ⟨msg, _, _, _, hhist, _⟩ | ⟨s2, p, hsess, _, _, hhist2, _⟩
  · rw [hhist]
  · rw [hsess]
    have h1 : st.session.conversationHistory <+: s2.conversationHistory ++ [⟨.user, p⟩] := by
      rw [hhist2]; exact List.prefix_append _ _
    exact h1.trans (queryAndAppend_history_grows env st.callIdx s2 p)

theorem processWorkItem_calls_ok (env : AgentEnv) (st : LoopState) (m : WorkItem) :
    ∀ c ∈ (processWorkItem env st m).calls,
      c.payload = truncateHistory c.history ∧
      c.history <+: (processWorkItem env st m).state.session.conversationHistory := by
  rcases processWorkItem_shape env st m with
    ⟨msg, _, hcalls, _⟩ | ⟨s2, p, hsess, _, hcalls, _⟩
  · rw [hcalls]; intro c hc; exact absurd hc (List.not_mem_nil c)
  · rw [hcalls, queryAndAppend_calls]
    intro c hc
    rw [List.mem_singleton] at hc
    subst hc
    exact ⟨rfl, by rw [hsess]; exact queryAndAppend_history_grows env st.callIdx s2 p⟩

theorem processWorkItem_backendfail (env : AgentEnv) (st : LoopState) (m : WorkItem)
    (e : AgentError) (he : (processWorkItem env st m).thrown = some e)
    (hbf : isBackendFailure e = true) :
    (processWorkItem env st m).calls.getLast? =
      some ⟨(processWorkItem env st m).state.session.conversationHistory,
            truncateHistory (processWorkItem env st m).state.session.conversationHistory⟩ ∧
    (∃ p, (processWorkItem env st m).state.session.conversationHistory.getLast? =
      some ⟨.user, p⟩) := by
  rcases processWorkItem_shape env st m with
    ⟨msg, _, _, hthr, _⟩ | ⟨s2, p, hsess, hthr, hcalls, _⟩
  · rw [hthr] at he
    injection he with h'
    rw [← h'] at hbf
    exact absurd hbf (by simp [isBackendFailure])
  · rw [hthr] at he
    obtain ⟨hs, _⟩ := queryAndAppend_thrown_session env st.callIdx s2 p e he
    have hhist : (processWorkItem env st m).state.session.conversationHistory =
        s2.conversationHistory ++ [⟨.user, p⟩] := by
      rw [hsess, hs]
    constructor
    · rw [hcalls, queryAndAppend_calls, hhist]
      rfl
    · exact ⟨p, by rw [hhist]; exact List.getLast?_concat _⟩

theorem runLoop_memoryId (env : AgentEnv) :
    ∀ (items : List WorkItem) (st : LoopState),
      (runLoop env st items).state.session.memorySessionId = st.session.memorySessionId
  | [], st => rfl
  | m :: rest, st => by
    simp only [runLoop]
    cases hr : (processWorkItem env st m).thrown with
    | some e => simpa using processWorkItem_memoryId env st m
    | none =>
      have h1 := runLoop_memoryId env rest (processWorkItem env st m).state
      simp only []
      rw [h1, processWorkItem_memoryId env st m]

theorem runLoop_history_grows (env : AgentEnv) :
    ∀ (items : List WorkItem) (st : LoopState),
      st.session.conversationHistory <+: (runLoop env st items).state.session.conversationHistory
  | [], st => List.prefix_refl _
  | m :: rest, st => by
    simp only [runLoop]
    cases hr : (processWorkItem env st m).thrown with
    | some e => simpa using processWorkItem_history_grows env st m
    | none =>
      have h1 := runLoop_history_grows env rest (processWorkItem env st m).state
      exact (processWorkItem_history_grows env st m).trans h1

theorem runLoop_calls_ok (env : AgentEnv) :
    ∀ (items : List WorkItem) (st : LoopState),
      ∀ c ∈ (runLoop env st items).calls,
        c.payload = truncateHistory c.history ∧
        c.history <+: (runLoop env st items).state.session.conversationHistory
  | [], st => by intro c hc; exact absurd hc (List.not_mem_nil c)
  | m :: rest, st => by
    simp only [runLoop]
    cases hr : (processWorkItem env st m).thrown with
    | some e =>
      simpa using processWorkItem_calls_ok env st m
    | none =>
      simp only []
      intro c hc
      rw [List.mem_append] at hc
      rcases hc with hc | hc
      · obtain ⟨hp, hpre⟩ := processWorkItem_calls_ok env st m c hc
        exact ⟨hp, hpre.trans (runLoop_history_grows env rest (processWorkItem env st m).state)⟩
      · exact runLoop_calls_ok env rest (processWorkItem env st m).state c hc

theorem runLoop_backendfail (env : AgentEnv) :
    ∀ (items : List WorkItem) (st : LoopState) (e : AgentError),
      (runLoop env st items).thrown = some e → isBackendFailure e = true →
      (runLoop env st items).calls.getLast? =
        some ⟨(runLoop env st items).state.session.conversationHistory,
              truncateHistory (runLoop env st items).state.session.conversationHistory⟩ ∧
      (∃ p, (runLoop env st items).state.session.conversationHistory.getLast? =
        some ⟨.user, p⟩)
  | [], st, e => by
    intro he
    simp [runLoop] at he
  | m :: rest, st, e => by
    intro he hbf
    simp only [runLoop] at he ⊢
    cases hr : (processWorkItem env st m).thrown with
    | some e' =>
      simp only [hr] at he ⊢
      injection he with h'
      rw [← h'] at hbf
      exact processWorkItem_backendfail env st m e' hr hbf
    | none =>
      simp only [hr] at he ⊢
      obtain ⟨h1, h2⟩ :=
        runLoop_backendfail env rest (processWorkItem env st m).state e he hbf
      exact ⟨by rw [List.getLast?_append, h1]; rfl, h2⟩

theorem ensureMemorySessionId_history (s : ActiveSession) (n : Nat) :
    (ensureMemorySessionId s n).conversationHistory = s.conversationHistory := by
  unfold ensureMemorySessionId
  cases s.memorySessionId <;> rfl

theorem ensureMemorySessionId_bound (s : ActiveSession) (n : Nat)
    (h : s.memorySessionId = none) :
    (ensureMemorySessionId s n).memorySessionId =
      some (syntheticMemorySessionId s.contentSessionId n) := by
  unfold ensureMemorySessionId
  rw [h]

theorem ensureMemorySessionId_already (s : ActiveSession) (n : Nat) (mid : String)
    (h : s.memorySessionId = some mid) :
    ensureMemorySessionId s n = s := by
  unfold ensureMemorySessionId
  rw [h]

theorem startSessionRun_history_grows (env : AgentEnv) (s1 : ActiveSession)
    (iP : String) (items : List WorkItem) :
    s1.conversationHistory <+: (startSessionRun env s1 iP items).session.conversationHistory := by
  have hbase : s1.conversationHistory <+:
      (queryAndAppend env 0 s1 iP).session.conversationHistory :=
    (List.prefix_append _ _).trans (queryAndAppend_history_grows env 0 s1 iP)
  simp only [startSessionRun]
  split
  · exact hbase
  · exact hbase.trans
      (runLoop_history_grows env items ⟨(queryAndAppend env 0 s1 iP).session, 1, none⟩)

theorem startSessionBody_history_grows (env : AgentEnv) (s : ActiveSession)
    (items : List WorkItem) :
    s.conversationHistory <+: (startSessionBody env s items).session.conversationHistory := by
  simp only [startSessionBody]
  split
  · exact List.prefix_refl _
  split
  · exact List.prefix_refl _
  have h1 := startSessionRun_history_grows env (ensureMemorySessionId s env.now)
    (if (ensureMemorySessionId s env.now).lastPromptNumber = 1 then
        env.buildInitPrompt (ensureMemorySessionId s env.now).project
          (ensureMemorySessionId s env.now).contentSessionId
          (ensureMemorySessionId s env.now).userPrompt env.mode
      else
        env.buildContinuationPrompt (ensureMemorySessionId s env.now).userPrompt
          (ensureMemorySessionId s env.now).lastPromptNumber
          (ensureMemorySessionId s env.now).contentSessionId env.mode) items
  rw [ensureMemorySessionId_history] at h1
  exact h1

theorem startSessionRun_calls_ok (env : AgentEnv) (s1 : ActiveSession) (iP : String)
    (items : List WorkItem) :
    ∀ c ∈ (startSessionRun env s1 iP items).calls,
      c.payload = truncateHistory c.history ∧
      c.history <+: (startSessionRun env s1 iP items).session.conversationHistory := by
  simp only [startSessionRun]
  split
  case h_1 e hq =>
    intro c hc
    dsimp only at hc ⊢
    rw [queryAndAppend_calls, List.mem_singleton] at hc
    subst hc
    exact ⟨rfl, queryAndAppend_history_grows env 0 s1 iP⟩
  case h_2 hq =>
    intro c hc
    dsimp only at hc ⊢
    rw [List.mem_append] at hc
    rcases hc with hc | hc
    · rw [queryAndAppend_calls, List.mem_singleton] at hc
      subst hc
      refine ⟨rfl, (queryAndAppend_history_grows env 0 s1 iP).trans ?_⟩
      exact runLoop_history_grows env items ⟨(queryAndAppend env 0 s1 iP).session, 1, none⟩
    · exact runLoop_calls_ok env items ⟨(queryAndAppend env 0 s1 iP).session, 1, none⟩ c hc

theorem startSessionRun_backendfail (env : AgentEnv) (s1 : ActiveSession) (iP : String)
    (items : List WorkItem) (e : AgentError)
    (he : (startSessionRun env s1 iP items).thrown = some e)
    (hbf : isBackendFailure e = true) :
    (startSessionRun env s1 iP items).calls.getLast? =
      some ⟨(startSessionRun env s1 iP items).session.conversationHistory,
            truncateHistory (startSessionRun env s1 iP items).session.conversationHistory⟩ ∧
    (∃ p, (startSessionRun env s1 iP items).session.conversationHistory.getLast? =
      some ⟨.user, p⟩) := by
  simp only [startSessionRun] at he ⊢
  cases hq : (queryAndAppend env 0 s1 iP).thrown with
  | some e'' =>
    simp only [hq] at he ⊢
    obtain ⟨hs, _⟩ := queryAndAppend_thrown_session env 0 s1 iP e'' hq
    have hhist : (queryAndAppend env 0 s1 iP).session.conversationHistory =
        s1.conversationHistory ++ [⟨.user, iP⟩] := by rw [hs]
    constructor
    · rw [queryAndAppend_calls, hhist]
      rfl
    · exact ⟨iP, by rw [hhist]; exact List.getLast?_concat _⟩
  | none =>
    simp only [hq] at he ⊢
    obtain ⟨h1, h2⟩ := runLoop_backendfail env items
      ⟨(queryAndAppend env 0 s1 iP).session, 1, none⟩ e he hbf
    exact ⟨by rw [List.getLast?_append, h1]; rfl, h2⟩

theorem startSessionRun_memoryId (env : AgentEnv) (s1 : ActiveSession) (iP : String)
    (items : List WorkItem) :
    (startSessionRun env s1 iP items).session.memorySessionId = s1.memorySessionId := by
  simp only [startSessionRun]
  split
  · dsimp only
    rw [queryAndAppend_memoryId]
  · dsimp only
    rw [runLoop_memoryId env items ⟨(queryAndAppend env 0 s1 iP).session, 1, none⟩,
      queryAndAppend_memoryId]

theorem startSessionBody_config_apiKey (env : AgentEnv) (s : ActiveSession)
    (items : List WorkItem) (hA : (getAzureOpenAIConfig env.settings).apiKey = "") :
    startSessionBody env s items =
      { session := s
        thrown := some (.configError "Azure OpenAI API key not configured. Set CLAUDE_MEM_AZURE_OPENAI_API_KEY in settings or AZURE_OPENAI_API_KEY environment variable.")
        calls := [] } := by
  simp only [startSessionBody]
  rw [if_pos hA]

theorem startSessionBody_config_endpoint (env : AgentEnv) (s : ActiveSession)
    (items : List WorkItem) (hA : ¬ (getAzureOpenAIConfig env.settings).apiKey = "")
    (hB : (getAzureOpenAIConfig env.settings).endpoint = "" ∨
          (getAzureOpenAIConfig env.settings).model = "") :
    startSessionBody env s items =
      { session := s
        thrown := some (.configError "Azure OpenAI endpoint or model not configured. Set CLAUDE_MEM_AZURE_OPENAI_ENDPOINT and CLAUDE_MEM_AZURE_OPENAI_MODEL in settings.")
        calls := [] } := by
  simp only [startSessionBody]
  rw [if_neg hA, if_pos hB]

theorem startSessionBody_calls_ok (env : AgentEnv) (s : ActiveSession)
    (items : List WorkItem) :
    ∀ c ∈ (startSessionBody env s items).calls,
      c.payload = truncateHistory c.history ∧
      c.history <+: (startSessionBody env s items).session.conversationHistory := by
  simp only [startSessionBody]
  split
  · intro c hc; exact absurd hc (by simp)
  split
  · intro c hc; exact absurd hc (by simp)
  exact startSessionRun_calls_ok env _ _ items

theorem startSessionBody_backendfail (env : AgentEnv) (s : ActiveSession)
    (items : List WorkItem) (e : AgentError)
    (he : (startSessionBody env s items).thrown = some e)
    (hbf : isBackendFailure e = true) :
    (startSessionBody env s items).calls.getLast? =
      some ⟨(startSessionBody env s items).session.conversationHistory,
            truncateHistory (startSessionBody env s items).session.conversationHistory⟩ ∧
    (∃ p, (startSessionBody env s items).session.conversationHistory.getLast? =
      some ⟨.user, p⟩) := by
  by_cases hA : (getAzureOpenAIConfig env.settings).apiKey = ""
  · rw [startSessionBody_config_apiKey env s items hA] at he
    simp only at he
    injection he with h'
    rw [← h'] at hbf
    exact absurd hbf (by simp [isBackendFailure])
  by_cases hB : (getAzureOpenAIConfig env.settings).endpoint = "" ∨
      (getAzureOpenAIConfig env.settings).model = ""
  · rw [startSessionBody_config_endpoint env s items hA hB] at he
    simp only at he
    injection he with h'
    rw [← h'] at hbf
    exact absurd hbf (by simp [isBackendFailure])
  simp only [startSessionBody] at he ⊢
  rw [if_neg hA, if_neg hB] at he ⊢
  exact startSessionRun_backendfail env _ _ items e he hbf

theorem startSessionBody_memoryId_bound (env : AgentEnv) (s : ActiveSession)
    (items : List WorkItem) (hA : ¬ (getAzureOpenAIConfig env.settings).apiKey = "")
    (hB : ¬ ((getAzureOpenAIConfig env.settings).endpoint = "" ∨
             (getAzureOpenAIConfig env.settings).model = ""))
    (hm : s.memorySessionId = none) :
    (startSessionBody env s items).session.memorySessionId =
      some (syntheticMemorySessionId s.contentSessionId env.now) := by
  simp only [startSessionBody]
  rw [if_neg hA, if_neg hB, startSessionRun_memoryId,
    ensureMemorySessionId_bound s env.now hm]

theorem startSession_carries (env : AgentEnv) (fb : Bool) (s : ActiveSession)
    (items : List WorkItem) :
    (startSession env fb s items).session = (startSessionBody env s items).session ∧
    (startSession env fb s items).calls = (startSessionBody env s items).calls := by
  simp only [startSession]
  split
  · exact ⟨rfl, rfl⟩
  split
  · exact ⟨rfl, rfl⟩
  split
  · exact ⟨rfl, rfl⟩
  · exact ⟨rfl, rfl⟩

theorem startSession_fellBack_inv (env : AgentEnv) (fb : Bool) (s : ActiveSession)
    (items : List WorkItem) (e : AgentError) (handed : ActiveSession)
    (ho : (startSession env fb s items).outcome = .fellBack e handed) :
    (startSessionBody env s items).thrown = some e ∧
    handed = (startSessionBody env s items).session := by
  simp only [startSession] at ho
  split at ho
  · exact absurd ho (by simp)
  case h_2 e' hthr =>
    split at ho
    · exact absurd ho (by simp)
    split at ho
    · simp only at ho
      injection ho with h1 h2
      subst h1
      exact ⟨hthr, h2.symm⟩
    · exact absurd ho (by simp)

/-- C2: whenever a failure of a backend call (transport or provider error) makes
`startSession` delegate to the fallback agent, the session handed over is the very
session object of the failing pass; its conversation history is exactly the
history the failing backend call was made from (the last recorded call sent its
truncation as payload), it ends in the just-appended unanswered `user` prompt,
and it extends the original history (no entry lost or duplicated, no prompt
rebuilt). -/
theorem fallback_receives_same_history (env : AgentEnv) (fb : Bool)
    (s : ActiveSession) (items : List WorkItem) (e : AgentError)
    (handed : ActiveSession)
    (ho : (startSession env fb s items).outcome = .fellBack e handed)
    (hbf : isBackendFailure e = true) :
    handed = (startSession env fb s items).session ∧
    (startSession env fb s items).calls.getLast? =
      some ⟨handed.conversationHistory, truncateHistory handed.conversationHistory⟩ ∧
    (∃ p, handed.conversationHistory.getLast? = some ⟨.user, p⟩) ∧
    s.conversationHistory <+: handed.conversationHistory := by
  obtain ⟨hthr, hhanded⟩ := startSession_fellBack_inv env fb s items e handed ho
  obtain ⟨hsess, hcalls⟩ := startSession_carries env fb s items
  obtain ⟨hlast, huser⟩ := startSessionBody_backendfail env s items e hthr hbf
  subst hhanded
  refine ⟨hsess.symm, ?_, huser, startSessionBody_history_grows env s items⟩
  rw [hcalls]
  exact hlast

/-- C3: truncation affects only the outgoing request payload. In every
`startSession` pass, each backend call sends exactly the truncation of the
in-memory history as recorded at call time, that recorded history is still a
prefix of the session's final history (no older entry is ever removed by a
call), and the history the pass started from is likewise preserved as a
prefix. -/
theorem truncation_only_affects_payload (env : AgentEnv) (fb : Bool)
    (s : ActiveSession) (items : List WorkItem) :
    (∀ c ∈ (startSession env fb s items).calls,
        c.payload = truncateHistory c.history ∧
        c.history <+: (startSession env fb s items).session.conversationHistory) ∧
    s.conversationHistory <+: (startSession env fb s items).session.conversationHistory := by
  obtain ⟨hsess, hcalls⟩ := startSession_carries env fb s items
  constructor
  · intro c hc
    rw [hcalls] at hc
    obtain ⟨h1, h2⟩ := startSessionBody_calls_ok env s items c hc
    exact ⟨h1, by rw [hsess]; exact h2⟩
  · rw [hsess]
    exact startSessionBody_history_grows env s items

/-- C6: when the api key, endpoint or model resolves to the empty string, the
pass raises the corresponding configuration error before any backend call — the
recorded call list is empty — and `startSession` either rethrows it (no fallback
agent) or hands it, with the untouched session, to the fallback agent. -/
theorem config_missing_no_network_call (env : AgentEnv) (fb : Bool)
    (s : ActiveSession) (items : List WorkItem)
    (h : (getAzureOpenAIConfig env.settings).apiKey = "" ∨
         (getAzureOpenAIConfig env.settings).endpoint = "" ∨
         (getAzureOpenAIConfig env.settings).model = "") :
    (startSession env fb s items).calls = [] ∧
    (startSession env fb s items).session = s ∧
    ∃ msg, (startSessionBody env s items).thrown = some (.configError msg) ∧
      ((fb = false → (startSession env fb s items).outcome = .failed (.configError msg)) ∧
       (fb = true → (startSession env fb s items).outcome = .fellBack (.configError msg) s)) := by
  have hbody : ∃ msg, startSessionBody env s items =
      { session := s, thrown := some (.configError msg), calls := [] } := by
    by_cases hA : (getAzureOpenAIConfig env.settings).apiKey = ""
    · exact ⟨_, startSessionBody_config_apiKey env s items hA⟩
    · rcases h with h | h | h
      · exact absurd h hA
      · exact ⟨_, startSessionBody_config_endpoint env s items hA (Or.inl h)⟩
      · exact ⟨_, startSessionBody_config_endpoint env s items hA (Or.inr h)⟩
  obtain ⟨msg, hbody⟩ := hbody
  refine ⟨?_, ?_, msg, by rw [hbody], ?_, ?_⟩
  · obtain ⟨_, hcalls⟩ := startSession_carries env fb s items
    rw [hcalls, hbody]
  · obtain ⟨hsess, _⟩ := startSession_carries env fb s items
    rw [hsess, hbody]
  · intro hfb
    subst hfb
    simp [startSession, hbody, isAbortError, shouldFallbackToClaude]
  · intro hfb
    subst hfb
    simp [startSession, hbody, isAbortError, shouldFallbackToClaude]

/-- C7: a cancellation (abort) raised during the pass is rethrown at once by the
`catch` — the outcome is failure with that very error and the fallback agent is
never invoked, whether or not one is configured. -/
theorem abort_propagates_never_falls_back (env : AgentEnv) (fb : Bool)
    (s : ActiveSession) (items : List WorkItem)
    (he : (startSessionBody env s items).thrown = some .abortError) :
    (startSession env fb s items).outcome = .failed .abortError := by
  simp [startSession, he, isAbortError]

/-- C9 (amended): the synthetic conversational handle is a deterministic function
of the session state and the wall clock: whenever the configuration is present
and no handle is bound yet, the pass binds exactly
`azure-openai-${contentSessionId}-${now}`, so two runs of the handle-assignment
step from the same session state *and the same clock reading* produce the same
handle; runs at different clock readings do not (see the counterexample). -/
theorem memory_handle_formula (env : AgentEnv) (fb : Bool) (s : ActiveSession)
    (items : List WorkItem)
    (hA : ¬ (getAzureOpenAIConfig env.settings).apiKey = "")
    (hB : ¬ ((getAzureOpenAIConfig env.settings).endpoint = "" ∨
             (getAzureOpenAIConfig env.settings).model = ""))
    (hm : s.memorySessionId = none) :
    (startSession env fb s items).session.memorySessionId =
      some (syntheticMemorySessionId s.contentSessionId env.now) := by
  obtain ⟨hsess, _⟩ := startSession_carries env fb s items
  rw [hsess]
  exact startSessionBody_memoryId_bound env s items hA hB hm

/-- Settings with key, endpoint and model present, used by the concrete runs. -/
def wSettings : AzureSettings :=
  { claudeMemAzureApiKey := "key", claudeMemAzureEndpoint := "https://res.azure.example"
    claudeMemAzureModel := "gpt-4o", claudeMemAzureApiVersion := "", envAzureApiKey := "" }

/-- A fresh session: no handle bound, empty history, zero counters. -/
def wSession : ActiveSession :=
  { sessionDbId := 1, contentSessionId := "c", memorySessionId := none, project := "p"
    userPrompt := "u", lastPromptNumber := 1, cumulativeInputTokens := 0
    cumulativeOutputTokens := 0, conversationHistory := [], processingMessageIds := []
    earliestPendingTimestamp := none, startTime := 0 }

/-- `wSession` with a conversational handle already bound. -/
def wBound : ActiveSession := { wSession with memorySessionId := some "m" }

/-- Concrete environment over a given network oracle and clock. -/
def mkEnv (b : Backend) (now : Nat) : AgentEnv :=
  { settings := wSettings, mode := "code", now := now, backend := b
    buildInitPrompt := fun _ _ _ _ => "init"
    buildContinuationPrompt := fun _ _ _ _ => "cont"
    buildObservationPrompt := fun _ => "obs"
    buildSummaryPrompt := fun _ _ => "sum" }

/-- An oracle that always answers with non-empty content and 8 total tokens. -/
def okBackend : Backend := fun _ _ => .ok ⟨some "reply", some 8, none⟩

/-- An oracle whose `fetch` always rejects with an abort error. -/
def abortBackend : Backend := fun _ _ => .aborted

/-- An oracle that always returns HTTP 500. -/
def httpErrBackend : Backend := fun _ _ => .httpError 500 "boom"

/-- An oracle that always answers with explicitly empty content. -/
def emptyBackend : Backend := fun _ _ => .ok ⟨some "", some 8, none⟩

/-- An oracle that always answers with non-empty content and 90 total tokens. -/
def backend90 : Backend := fun _ _ => .ok ⟨some "reply", some 90, none⟩

/-- An oracle that always answers with non-empty content and 100 total tokens. -/
def backend100 : Backend := fun _ _ => .ok ⟨some "reply", some 100, none⟩

/-- An observation work item. -/
def obsItem : WorkItem := ⟨11, some "/w", .observation "Bash" "{}" "\"ok\"" (some 2)⟩

/-- A summarize work item. -/
def sumItem : WorkItem := ⟨12, none, .summarize (some "done")⟩

/-- C9 counterexample: two runs of the handle-assignment step from the *same*
session state but at different wall-clock instants bind different handles — the
synthetic id embeds `Date.now()`, so it is not a function of the session state
alone. -/
theorem memory_handle_clock_counterexample :
    (startSession (mkEnv okBackend 0) true wSession []).session.memorySessionId ≠
    (startSession (mkEnv okBackend 5) true wSession []).session.memorySessionId := by
  decide

/-- C9 witness: at clock reading 5 the bound handle is exactly
`azure-openai-c-5`, as the amended theorem computes. -/
theorem memory_handle_formula_witness :
    ¬ (getAzureOpenAIConfig (mkEnv okBackend 5).settings).apiKey = "" ∧
    ¬ ((getAzureOpenAIConfig (mkEnv okBackend 5).settings).endpoint = "" ∨
       (getAzureOpenAIConfig (mkEnv okBackend 5).settings).model = "") ∧
    wSession.memorySessionId = none ∧
    (startSession (mkEnv okBackend 5) true wSession []).session.memorySessionId =
      some (syntheticMemorySessionId wSession.contentSessionId (mkEnv okBackend 5).now) :=
  ⟨by decide, by decide, by decide,
    memory_handle_formula (mkEnv okBackend 5) true wSession [] (by decide) (by decide) (by decide)⟩

/-- C4 (amended): for every processed observation item whose reply has non-empty
content and reports `total_tokens = t`, the cumulative counters increase by
`Math.floor(t * 0.7)` and `Math.floor(t * 0.3)` computed in IEEE-754 binary64
arithmetic (`jsFloorMul07` / `jsFloorMul03`); in particular, for `t = 100` the
input counter increases by exactly 70 and the output counter by exactly 30.
(The exact-arithmetic reading `floor(t * 7 / 10)` of the claim fails at
`t = 90` — see the counterexample.) -/
theorem token_split_binary64 (env : AgentEnv) (st : LoopState)
    (pid : Nat) (cwd : Option String) (tn ti tr : String) (pn : Option Nat)
    (mid : String) (hmem : st.session.memorySessionId = some mid)
    (c : String) (hne : c ≠ "") (t : Nat)
    (hb : ∀ i p, env.backend i p = .ok ⟨some c, some t, none⟩) :
    (processWorkItem env st ⟨pid, cwd, .observation tn ti tr pn⟩).state.session.cumulativeInputTokens =
      st.session.cumulativeInputTokens + jsFloorMul07 t ∧
    (processWorkItem env st ⟨pid, cwd, .observation tn ti tr pn⟩).state.session.cumulativeOutputTokens =
      st.session.cumulativeOutputTokens + jsFloorMul03 t ∧
    (jsFloorMul07 100 = 70 ∧ jsFloorMul03 100 = 30) := by
  rcases processWorkItem_shape env st ⟨pid, cwd, .observation tn ti tr pn⟩ with
    ⟨msg, hnone, _⟩ | ⟨s2, p, hsess, _, _, _, _, hin, hout, _⟩
  · rw [hnone] at hmem; exact absurd hmem (by simp)
  · have hq := query_full_content env.backend st.callIdx
      (s2.conversationHistory ++ [⟨.user, p⟩]) ⟨some c, some t, none⟩ c
      (hb _ _) rfl rfl hne
    obtain ⟨hs, _⟩ := queryAndAppend_ok_session env st.callIdx s2 p
      ⟨c, some t⟩ hq
    rw [hsess, hs, applyReply_nonempty _ _ hne]
    refine ⟨?_, ?_, by decide, by decide⟩
    · simp only [Option.getD]
      rw [hin]
    · simp only [Option.getD]
      rw [hout]

/-- C4 counterexample: the claim reads the 70/30 split as exact-arithmetic
floors, but the code computes `Math.floor(tokensUsed * 0.7)` in binary64: at
`tokensUsed = 90` the exact value `90 × 0.7 = 63` floors to 63, while the code
(where `90 * 0.7` rounds to the double `62.99999999999999289...`) adds only 62
to the input counter. -/
theorem token_split_floor_counterexample :
    (90 : ℚ) * (7 / 10) = 63 ∧
    (processWorkItem (mkEnv backend90 5) ⟨wBound, 0, none⟩ obsItem).state.session.cumulativeInputTokens = 62 ∧
    (62 : Nat) ≠ 63 := by
  refine ⟨by norm_num, by decide, by decide⟩

/-- C4 witness: the amended theorem at `t = 100` on a concrete session with zero
counters: the input counter becomes 70 and the output counter 30. -/
theorem token_split_binary64_witness :
    wBound.memorySessionId = some "m" ∧
    ("reply" : String) ≠ "" ∧
    (∀ i p, (mkEnv backend100 5).backend i p =
      .ok ⟨some "reply", some 100, none⟩) ∧
    (processWorkItem (mkEnv backend100 5) ⟨wBound, 0, none⟩ obsItem).state.session.cumulativeInputTokens =
      wBound.cumulativeInputTokens + jsFloorMul07 100 ∧
    (processWorkItem (mkEnv backend100 5) ⟨wBound, 0, none⟩ obsItem).state.session.cumulativeOutputTokens =
      wBound.cumulativeOutputTokens + jsFloorMul03 100 ∧
    (jsFloorMul07 100 = 70 ∧ jsFloorMul03 100 = 30) :=
  ⟨by decide, by decide, fun _ _ => rfl,
    token_split_binary64 (mkEnv backend100 5) ⟨wBound, 0, none⟩ 11 (some "/w")
      "Bash" "{}" "\"ok\"" (some 2) "m" (by decide) "reply" (by decide) 100
      (fun _ _ => rfl)⟩

/-- C5: an empty-content reply (`content: ""`) to an observation item is
tolerated: no error is thrown, no `assistant` entry is appended (the history
grows by exactly the `user` prompt entry), both cumulative token counters stay
unchanged, and the loop proceeds to the remaining queued items. -/
theorem empty_reply_tolerated (env : AgentEnv) (st : LoopState)
    (pid : Nat) (cwd : Option String) (tn ti tr : String) (pn : Option Nat)
    (mid : String) (hmem : st.session.memorySessionId = some mid)
    (tok : Option Nat)
    (hb : ∀ i p, env.backend i p = .ok ⟨some "", tok, none⟩)
    (rest : List WorkItem) :
    (processWorkItem env st ⟨pid, cwd, .observation tn ti tr pn⟩).thrown = none ∧
    (∃ p, (processWorkItem env st ⟨pid, cwd, .observation tn ti tr pn⟩).state.session.conversationHistory =
        st.session.conversationHistory ++ [⟨.user, p⟩]) ∧
    (processWorkItem env st ⟨pid, cwd, .observation tn ti tr pn⟩).state.session.cumulativeInputTokens =
      st.session.cumulativeInputTokens ∧
    (processWorkItem env st ⟨pid, cwd, .observation tn ti tr pn⟩).state.session.cumulativeOutputTokens =
      st.session.cumulativeOutputTokens ∧
    runLoop env st (⟨pid, cwd, .observation tn ti tr pn⟩ :: rest) =
      { state := (runLoop env (processWorkItem env st ⟨pid, cwd, .observation tn ti tr pn⟩).state rest).state
        thrown := (runLoop env (processWorkItem env st ⟨pid, cwd, .observation tn ti tr pn⟩).state rest).thrown
        calls := (processWorkItem env st ⟨pid, cwd, .observation tn ti tr pn⟩).calls ++
          (runLoop env (processWorkItem env st ⟨pid, cwd, .observation tn ti tr pn⟩).state rest).calls } := by
  rcases processWorkItem_shape env st ⟨pid, cwd, .observation tn ti tr pn⟩ with
    ⟨msg, hnone, _⟩ | ⟨s2, p, hsess, hthr, _, hhist, _, hin, hout, _⟩
  · rw [hnone] at hmem; exact absurd hmem (by simp)
  · have hq := query_empty_content env.backend st.callIdx
      (s2.conversationHistory ++ [⟨.user, p⟩]) ⟨some "", tok, none⟩
      (hb _ _) rfl (Or.inr rfl)
    obtain ⟨hs, hqthr⟩ := queryAndAppend_ok_session env st.callIdx s2 p
      ⟨"", none⟩ hq
    have hth : (processWorkItem env st ⟨pid, cwd, .observation tn ti tr pn⟩).thrown = none := by
      rw [hthr, hqthr]
    have hsfull : (processWorkItem env st ⟨pid, cwd, .observation tn ti tr pn⟩).state.session =
        { s2 with conversationHistory := s2.conversationHistory ++ [⟨.user, p⟩] } := by
      rw [hsess, hs, applyReply_empty _ _ rfl]
    refine ⟨hth, ⟨p, ?_⟩, ?_, ?_, ?_⟩
    · rw [hsfull]
      simp only
      rw [hhist]
    · rw [hsfull]
      simp only
      rw [hin]
    · rw [hsfull]
      simp only
      rw [hout]
    · simp only [runLoop, hth]

/-- C8 (amended): a `summarize` item processed while the conversational handle is
not yet bound fails with the precondition error, makes no backend call, and
leaves the conversation history, both token counters, the prompt number, the
pending timestamp and the handle untouched — but the item's persistent id *is*
appended to the processed-message list before the precondition check, so the
session state is not left entirely unchanged (see the counterexample). -/
theorem summarize_precondition (env : AgentEnv) (st : LoopState)
    (pid : Nat) (cwd : Option String) (lam : Option String)
    (hm : st.session.memorySessionId = none) :
    (processWorkItem env st ⟨pid, cwd, .summarize lam⟩).thrown =
      some (.preconditionError "Cannot process summary: memorySessionId not yet captured. This session may need to be reinitialized.") ∧
    (processWorkItem env st ⟨pid, cwd, .summarize lam⟩).calls = [] ∧
    (processWorkItem env st ⟨pid, cwd, .summarize lam⟩).state.session.conversationHistory =
      st.session.conversationHistory ∧
    (processWorkItem env st ⟨pid, cwd, .summarize lam⟩).state.session.cumulativeInputTokens =
      st.session.cumulativeInputTokens ∧
    (processWorkItem env st ⟨pid, cwd, .summarize lam⟩).state.session.cumulativeOutputTokens =
      st.session.cumulativeOutputTokens ∧
    (processWorkItem env st ⟨pid, cwd, .summarize lam⟩).state.session.lastPromptNumber =
      st.session.lastPromptNumber ∧
    (processWorkItem env st ⟨pid, cwd, .summarize lam⟩).state.session.earliestPendingTimestamp =
      st.session.earliestPendingTimestamp ∧
    (processWorkItem env st ⟨pid, cwd, .summarize lam⟩).state.session.memorySessionId =
      st.session.memorySessionId ∧
    (processWorkItem env st ⟨pid, cwd, .summarize lam⟩).state.session.processingMessageIds =
      st.session.processingMessageIds ++ [pid] := by
  obtain ⟨⟨sid, csid, mem, proj, upr, lpn, cit, cot, hist, pmi, ept, stt⟩, ci, lc⟩ := st
  dsimp only at hm
  subst hm
  exact ⟨rfl, rfl, rfl, rfl, rfl, rfl, rfl, rfl, rfl⟩

/-- C8 counterexample: the claim that the session state is left entirely
unchanged fails: processing a `summarize` item on a session without a bound
handle throws the precondition error, yet the item's persistent id 12 has
already been pushed onto the (initially empty) processed-message list. -/
theorem summarize_precondition_state_counterexample :
    (processWorkItem (mkEnv okBackend 5) ⟨wSession, 0, none⟩ sumItem).thrown =
      some (.preconditionError "Cannot process summary: memorySessionId not yet captured. This session may need to be reinitialized.") ∧
    wSession.processingMessageIds = [] ∧
    (processWorkItem (mkEnv okBackend 5) ⟨wSession, 0, none⟩ sumItem).state.session.processingMessageIds = [12] ∧
    ([12] : List Nat) ≠ [] := by
  refine ⟨by decide, rfl, by decide, by decide⟩

/-- C8 witness: the amended theorem on the concrete fresh session and summarize
item. -/
theorem summarize_precondition_witness :
    wSession.memorySessionId = none ∧
    ((processWorkItem (mkEnv okBackend 5) ⟨wSession, 0, none⟩ ⟨12, none, .summarize (some "done")⟩).thrown =
      some (.preconditionError "Cannot process summary: memorySessionId not yet captured. This session may need to be reinitialized.") ∧
     (processWorkItem (mkEnv okBackend 5) ⟨wSession, 0, none⟩ ⟨12, none, .summarize (some "done")⟩).calls = [] ∧
     (processWorkItem (mkEnv okBackend 5) ⟨wSession, 0, none⟩ ⟨12, none, .summarize (some "done")⟩).state.session.conversationHistory =
       wSession.conversationHistory ∧
     (processWorkItem (mkEnv okBackend 5) ⟨wSession, 0, none⟩ ⟨12, none, .summarize (some "done")⟩).state.session.cumulativeInputTokens =
       wSession.cumulativeInputTokens ∧
     (processWorkItem (mkEnv okBackend 5) ⟨wSession, 0, none⟩ ⟨12, none, .summarize (some "done")⟩).state.session.cumulativeOutputTokens =
       wSession.cumulativeOutputTokens ∧
     (processWorkItem (mkEnv okBackend 5) ⟨wSession, 0, none⟩ ⟨12, none, .summarize (some "done")⟩).state.session.lastPromptNumber =
       wSession.lastPromptNumber ∧
     (processWorkItem (mkEnv okBackend 5) ⟨wSession, 0, none⟩ ⟨12, none, .summarize (some "done")⟩).state.session.earliestPendingTimestamp =
       wSession.earliestPendingTimestamp ∧
     (processWorkItem (mkEnv okBackend 5) ⟨wSession, 0, none⟩ ⟨12, none, .summarize (some "done")⟩).state.session.memorySessionId =
       wSession.memorySessionId ∧
     (processWorkItem (mkEnv okBackend 5) ⟨wSession, 0, none⟩ ⟨12, none, .summarize (some "done")⟩).state.session.processingMessageIds =
       wSession.processingMessageIds ++ [12]) :=
  ⟨rfl, summarize_precondition (mkEnv okBackend 5) ⟨wSession, 0, none⟩ 12 none (some "done") rfl⟩

/-- C5 witness: the empty-reply theorem on a concrete bound session, an
observation item and an always-empty backend. -/
theorem empty_reply_tolerated_witness :
    wBound.memorySessionId = some "m" ∧
    (∀ i p, (mkEnv emptyBackend 5).backend i p = .ok ⟨some "", some 8, none⟩) ∧
    ((processWorkItem (mkEnv emptyBackend 5) ⟨wBound, 0, none⟩ obsItem).thrown = none ∧
     (∃ p, (processWorkItem (mkEnv emptyBackend 5) ⟨wBound, 0, none⟩ obsItem).state.session.conversationHistory =
         wBound.conversationHistory ++ [⟨.user, p⟩]) ∧
     (processWorkItem (mkEnv emptyBackend 5) ⟨wBound, 0, none⟩ obsItem).state.session.cumulativeInputTokens =
       wBound.cumulativeInputTokens ∧
     (processWorkItem (mkEnv emptyBackend 5) ⟨wBound, 0, none⟩ obsItem).state.session.cumulativeOutputTokens =
       wBound.cumulativeOutputTokens ∧
     runLoop (mkEnv emptyBackend 5) ⟨wBound, 0, none⟩ (obsItem :: [sumItem]) =
       { state := (runLoop (mkEnv emptyBackend 5) (processWorkItem (mkEnv emptyBackend 5) ⟨wBound, 0, none⟩ obsItem).state [sumItem]).state
         thrown := (runLoop (mkEnv emptyBackend 5) (processWorkItem (mkEnv emptyBackend 5) ⟨wBound, 0, none⟩ obsItem).state [sumItem]).thrown
         calls := (processWorkItem (mkEnv emptyBackend 5) ⟨wBound, 0, none⟩ obsItem).calls ++
           (runLoop (mkEnv emptyBackend 5) (processWorkItem (mkEnv emptyBackend 5) ⟨wBound, 0, none⟩ obsItem).state [sumItem]).calls }) :=
  ⟨rfl, fun _ _ => rfl,
    empty_reply_tolerated (mkEnv emptyBackend 5) ⟨wBound, 0, none⟩ 11 (some "/w")
      "Bash" "{}" "\"ok\"" (some 2) "m" rfl (some 8) (fun _ _ => rfl) [sumItem]⟩

/-- C2 witness: with an always-HTTP-500 primary and a fallback agent configured,
the pass falls back on the transport error and the fallback-handoff properties
hold at this concrete run. -/
theorem fallback_receives_same_history_witness :
    (startSession (mkEnv httpErrBackend 5) true wSession []).outcome =
      .fellBack (.transportError 500 "boom")
        ((startSession (mkEnv httpErrBackend 5) true wSession []).session) ∧
    isBackendFailure (.transportError 500 "boom") = true ∧
    ((startSession (mkEnv httpErrBackend 5) true wSession []).session =
       (startSession (mkEnv httpErrBackend 5) true wSession []).session ∧
     (startSession (mkEnv httpErrBackend 5) true wSession []).calls.getLast? =
       some ⟨(startSession (mkEnv httpErrBackend 5) true wSession []).session.conversationHistory,
             truncateHistory (startSession (mkEnv httpErrBackend 5) true wSession []).session.conversationHistory⟩ ∧
     (∃ p, (startSession (mkEnv httpErrBackend 5) true wSession []).session.conversationHistory.getLast? =
       some ⟨.user, p⟩) ∧
     wSession.conversationHistory <+:
       (startSession (mkEnv httpErrBackend 5) true wSession []).session.conversationHistory) :=
  ⟨by decide, by decide,
    fallback_receives_same_history (mkEnv httpErrBackend 5) true wSession []
      (.transportError 500 "boom")
      ((startSession (mkEnv httpErrBackend 5) true wSession []).session)
      (by decide) (by decide)⟩

/-- C3 witness: the frame theorem instantiated at a concrete run with one
observation item. -/
theorem truncation_only_affects_payload_witness :
    (∀ c ∈ (startSession (mkEnv okBackend 5) true wSession [obsItem]).calls,
        c.payload = truncateHistory c.history ∧
        c.history <+: (startSession (mkEnv okBackend 5) true wSession [obsItem]).session.conversationHistory) ∧
    wSession.conversationHistory <+:
      (startSession (mkEnv okBackend 5) true wSession [obsItem]).session.conversationHistory :=
  truncation_only_affects_payload (mkEnv okBackend 5) true wSession [obsItem]

/-- Settings with every value absent, for the C6 witness. -/
def emptySettings : AzureSettings :=
  { claudeMemAzureApiKey := "", claudeMemAzureEndpoint := "", claudeMemAzureModel := ""
    claudeMemAzureApiVersion := "", envAzureApiKey := "" }

/-- C6 witness: with no credentials configured, the pass makes no backend call
and raises the configuration error. -/
theorem config_missing_no_network_call_witness :
    ((getAzureOpenAIConfig emptySettings).apiKey = "" ∨
     (getAzureOpenAIConfig emptySettings).endpoint = "" ∨
     (getAzureOpenAIConfig emptySettings).model = "") ∧
    ((startSession { mkEnv okBackend 5 with settings := emptySettings } false wSession []).calls = [] ∧
     (startSession { mkEnv okBackend 5 with settings := emptySettings } false wSession []).session = wSession ∧
     ∃ msg, (startSessionBody { mkEnv okBackend 5 with settings := emptySettings } wSession []).thrown =
         some (.configError msg) ∧
       ((false = false →
          (startSession { mkEnv okBackend 5 with settings := emptySettings } false wSession []).outcome =
            .failed (.configError msg)) ∧
        (false = true →
          (startSession { mkEnv okBackend 5 with settings := emptySettings } false wSession []).outcome =
            .fellBack (.configError msg) wSession))) :=
  ⟨by decide,
    config_missing_no_network_call { mkEnv okBackend 5 with settings := emptySettings }
      false wSession [] (by decide)⟩

/-- C7 witness: with an aborting backend, the pass fails with the abort error and
never falls back even though a fallback agent is configured. -/
theorem abort_propagates_never_falls_back_witness :
    (startSessionBody (mkEnv abortBackend 5) wSession []).thrown = some .abortError ∧
    (startSession (mkEnv abortBackend 5) true wSession []).outcome = .failed .abortError :=
  ⟨by decide,
    abort_propagates_never_falls_back (mkEnv abortBackend 5) true wSession [] (by decide)⟩
